import Mathlib

/-!
Verification of the flarepred condition evaluator
(`RealTime/flare_conditions.py`) against its specification.

A telemetry sample set is a mapping from channel names to time-ordered
sequences of numeric readings; we embed it as an association list from
`String` to `List ℚ`.  Channel access `goes_data['name']` raises a
`MissingChannel` error when the channel is absent, and reading the last
element (`.iloc[-1]`) raises when the channel is empty; both are embedded
as `Except String` with the offending channel's name as the error value.
-/

namespace Flarepred

/-- A telemetry sample set: named numeric channels, each a time-ordered
sequence of readings (oldest first). -/
abbrev SampleSet := List (String × List ℚ)

/-- Channel lookup by name (first binding wins, as in a dict with unique
keys). -/
def lookupChannel : SampleSet → String → Option (List ℚ)
  | [], _ => none
  | (k, xs) :: rest, name => if name = k then some xs else lookupChannel rest name

/-- Embedding of `goes_data['name']`: the channel's sequence, or a
MissingChannel error naming the absent channel. -/
def getChannel (goes_data : SampleSet) (name : String) : Except String (List ℚ) :=
  match lookupChannel goes_data name with
  | some xs => Except.ok xs
  | none => Except.error name

/-- Embedding of `series.iloc[-1]`: the most recent reading, or a
MissingChannel error naming the channel when the series is empty. -/
def ilocLast (name : String) (xs : List ℚ) : Except String ℚ :=
  match xs.getLast? with
  | some v => Except.ok v
  | none => Except.error name

/-- The most recent reading of a channel, when the channel is present and
non-empty. -/
def lastValue (goes_data : SampleSet) (name : String) : Option ℚ :=
  (lookupChannel goes_data name).bind List.getLast?

/-- `xrsa_condition`: last `xrsa` value above `4.5e-7`. -/
def xrsa_condition (goes_data : SampleSet) : Except String Bool := do
  let a ← getChannel goes_data "xrsa"
  let flux_val : ℚ := 45 / 10^8
  let v ← ilocLast "xrsa" a
  pure (decide (v > flux_val))

/-- `xrsb_condition`: last `xrsb` value above `5e-6`. -/
def xrsb_condition (goes_data : SampleSet) : Except String Bool := do
  let b ← getChannel goes_data "xrsb"
  let flux_val : ℚ := 5 / 10^6
  let v ← ilocLast "xrsb" b
  pure (decide (v > flux_val))

/-- `xrsb_condition2`: last `xrsb` value above `3e-6`. -/
def xrsb_condition2 (goes_data : SampleSet) : Except String Bool := do
  let b ← getChannel goes_data "xrsb"
  let flux_val : ℚ := 3 / 10^6
  let v ← ilocLast "xrsb" b
  pure (decide (v > flux_val))

/-- `temp5min_condition`: last `5min Temp` value above `10.0`. -/
def temp5min_condition (goes_data : SampleSet) : Except String Bool := do
  let temp ← getChannel goes_data "5min Temp"
  let temp_val : ℚ := 10
  let v ← ilocLast "5min Temp" temp
  pure (decide (v > temp_val))

/-- `xrsa_3mindiff_condition`: last `3minxrsadiff` value above `5e-8`. -/
def xrsa_3mindiff_condition (goes_data : SampleSet) : Except String Bool := do
  let xrsa3min ← getChannel goes_data "3minxrsadiff"
  let xrsa3min_val : ℚ := 5 / 10^8
  let v ← ilocLast "3minxrsadiff" xrsa3min
  pure (decide (v > xrsa3min_val))

/-- `em3min_condition`: last `5min emission measure` value above `1e47`. -/
def em3min_condition (goes_data : SampleSet) : Except String Bool := do
  let em ← getChannel goes_data "5min emission measure"
  let em_val : ℚ := 10^47
  let v ← ilocLast "5min emission measure" em
  pure (decide (v > em_val))

/-- `special_flare_trigger`: flares are always happening. -/
def special_flare_trigger (_goes_data : SampleSet) : Except String Bool :=
  Except.ok true

/-- `magic_flare_trigger`: flares are always happening. -/
def magic_flare_trigger (_goes_data : SampleSet) : Except String Bool :=
  Except.ok true

/-- `flare_end_condition`: the source first binds `a = goes_data['xrsa']`
(whose values are never read; the derivative test is commented out) and
then returns whether the last `xrsb` value is below `2.5e-6`. -/
def flare_end_condition (goes_data : SampleSet) : Except String Bool := do
  let _a ← getChannel goes_data "xrsa"
  let b ← getChannel goes_data "xrsb"
  let flux_val : ℚ := 25 / 10^7
  let v ← ilocLast "xrsb" b
  pure (decide (v < flux_val))

/-- A condition registry: display labels paired with predicates. -/
abbrev Registry := List (String × (SampleSet → Except String Bool))

/-- The original registry `FLARE_ALERT_MAP` from the source. -/
def FLARE_ALERT_MAP : Registry :=
  [("XRSB>5e-6 W/m<sup>2</sup>", xrsb_condition),
   ("dEM (3 min)>1e47cm<sup>-2</sup>", em3min_condition)]

/-- The alternate registry `FLARE_ALERT_MAP_NEW` from the source. -/
def FLARE_ALERT_MAP_NEW : Registry :=
  [("XRSB>3e-6 W/m<sup>2</sup><br>5 minute countdown<br>Last XRSA must be increasing",
    xrsb_condition2)]

/-- Modelled from the spec: the `evaluate(sample_set, registry)` operation
of the Condition Evaluator is not in the source (the polling loop is an
external collaborator); per the spec it invokes each registered predicate
on the sample set, fails with the MissingChannel error when a predicate
does, and otherwise returns the mapping of label to verdict. -/
def evaluate (sample_set : SampleSet) : Registry → Except String (List (String × Bool))
  | [] => Except.ok []
  | (label, p) :: rest => do
      let v ← p sample_set
      let others ← evaluate sample_set rest
      pure ((label, v) :: others)

/-! ### The last two readings of a channel -/

/-- The last and second-to-last readings of a sequence (each `none` when the
sequence is too short). -/
def lastTwo (xs : List ℚ) : Option ℚ × Option ℚ :=
  (xs.getLast?, xs.dropLast.getLast?)

/-- Two sample sets have the same channels and agree on the last two readings
of every channel. -/
def sameLastTwo (d₁ d₂ : SampleSet) : Prop :=
  ∀ c : String, Option.map lastTwo (lookupChannel d₁ c) = Option.map lastTwo (lookupChannel d₂ c)

/-! ### Normal forms of the threshold predicates -/

/-- The common shape of all single-channel threshold predicates: apply a test
to the channel's most recent reading, or fail naming the channel. -/
def thresholdResult (goes_data : SampleSet) (name : String) (f : ℚ → Bool) : Except String Bool :=
  match lastValue goes_data name with
  | some v => Except.ok (f v)
  | none => Except.error name

theorem getChannel_ilocLast_eq (d : SampleSet) (name : String) (f : ℚ → Bool) :
    (do
      let xs ← getChannel d name
      let v ← ilocLast name xs
      pure (f v) : Except String Bool) = thresholdResult d name f := by
  unfold getChannel ilocLast thresholdResult lastValue
  cases hl : lookupChannel d name with
  | none => rfl
  | some xs =>
    cases hg : xs.getLast? with
    | none => simp [Option.bind, hg, bind, Except.bind]
    | some v => simp [Option.bind, hg, bind, Except.bind, pure, Except.pure]

theorem xrsb_condition_eq (d : SampleSet) :
    xrsb_condition d = thresholdResult d "xrsb" (fun v => decide (v > 5 / 10^6)) := by
  unfold xrsb_condition
  exact getChannel_ilocLast_eq d "xrsb" _

theorem xrsb_condition2_eq (d : SampleSet) :
    xrsb_condition2 d = thresholdResult d "xrsb" (fun v => decide (v > 3 / 10^6)) := by
  unfold xrsb_condition2
  exact getChannel_ilocLast_eq d "xrsb" _

theorem em3min_condition_eq (d : SampleSet) :
    em3min_condition d =
      thresholdResult d "5min emission measure" (fun v => decide (v > 10^47)) := by
  unfold em3min_condition
  exact getChannel_ilocLast_eq d "5min emission measure" _

theorem flare_end_condition_eq (d : SampleSet) :
    flare_end_condition d =
      match lookupChannel d "xrsa" with
      | none => Except.error "xrsa"
      | some _ => thresholdResult d "xrsb" (fun v => decide (v < 25 / 10^7)) := by
  unfold flare_end_condition getChannel
  cases hl : lookupChannel d "xrsa" with
  | none => rfl
  | some a =>
    show (do
      let xs ← getChannel d "xrsb"
      let v ← ilocLast "xrsb" xs
      pure (decide (v < 25 / 10^7)) : Except String Bool) = _
    exact getChannel_ilocLast_eq d "xrsb" _

theorem thresholdResult_congr {d₁ d₂ : SampleSet} {c : String} (f : ℚ → Bool)
    (h : lastValue d₁ c = lastValue d₂ c) :
    thresholdResult d₁ c f = thresholdResult d₂ c f := by
  unfold thresholdResult
  rw [h]

theorem lookup_of_lastValue_some {d : SampleSet} {c : String} {v : ℚ}
    (h : lastValue d c = some v) : ∃ xs, lookupChannel d c = some xs := by
  unfold lastValue at h
  cases hl : lookupChannel d c with
  | none => rw [hl] at h; cases h
  | some xs => exact ⟨xs, rfl⟩

theorem lastValue_eq_of_sameLastTwo {d₁ d₂ : SampleSet} (h : sameLastTwo d₁ d₂)
    (c : String) : lastValue d₁ c = lastValue d₂ c := by
  have hc := h c
  unfold lastValue
  cases h₁ : lookupChannel d₁ c with
  | none =>
    cases h₂ : lookupChannel d₂ c with
    | none => rfl
    | some ys => rw [h₁, h₂] at hc; cases hc
  | some xs =>
    cases h₂ : lookupChannel d₂ c with
    | none => rw [h₁, h₂] at hc; cases hc
    | some ys =>
      rw [h₁, h₂] at hc
      have hxy : lastTwo xs = lastTwo ys := Option.some.inj hc
      have : xs.getLast? = ys.getLast? := congrArg Prod.fst hxy
      simp [this]

/-! ### State-instrumented model

To settle the purity claim we re-embed the evaluator with the sample set
threaded as explicit mutable state: every primitive the source performs on
`goes_data` (channel access, `.iloc[-1]`) is a state action that returns the
possibly-updated sample set alongside its result.  Since the source only
reads, each primitive returns the state it received; that the whole
evaluation leaves the state unchanged is then proved, not assumed. -/

/-- Sequencing of state actions that may fail. -/
def bindS {α β : Type} (m : SampleSet → Except String α × SampleSet)
    (f : α → SampleSet → Except String β × SampleSet)
    (s : SampleSet) : Except String β × SampleSet :=
  match m s with
  | (Except.ok a, s2) => f a s2
  | (Except.error e, s2) => (Except.error e, s2)

/-- A pure result as a state action. -/
def pureS {α : Type} (a : α) (s : SampleSet) : Except String α × SampleSet :=
  (Except.ok a, s)

/-- `goes_data['name']` as a state action. -/
def readChannelS (name : String) (s : SampleSet) : Except String (List ℚ) × SampleSet :=
  (getChannel s name, s)

/-- `series.iloc[-1]` as a state action. -/
def ilocLastS (name : String) (xs : List ℚ) (s : SampleSet) : Except String ℚ × SampleSet :=
  (ilocLast name xs, s)

/-- `xrsb_condition` in the state-instrumented model. -/
def xrsb_conditionS : SampleSet → Except String Bool × SampleSet :=
  bindS (readChannelS "xrsb") fun b =>
    bindS (ilocLastS "xrsb" b) fun v =>
      pureS (decide (v > 5 / 10^6))

/-- `xrsb_condition2` in the state-instrumented model. -/
def xrsb_condition2S : SampleSet → Except String Bool × SampleSet :=
  bindS (readChannelS "xrsb") fun b =>
    bindS (ilocLastS "xrsb" b) fun v =>
      pureS (decide (v > 3 / 10^6))

/-- `em3min_condition` in the state-instrumented model. -/
def em3min_conditionS : SampleSet → Except String Bool × SampleSet :=
  bindS (readChannelS "5min emission measure") fun em =>
    bindS (ilocLastS "5min emission measure" em) fun v =>
      pureS (decide (v > 10^47))

/-- A registry of state-instrumented predicates. -/
abbrev RegistryS := List (String × (SampleSet → Except String Bool × SampleSet))

/-- `FLARE_ALERT_MAP` over the state-instrumented predicates. -/
def FLARE_ALERT_MAP_S : RegistryS :=
  [("XRSB>5e-6 W/m<sup>2</sup>", xrsb_conditionS),
   ("dEM (3 min)>1e47cm<sup>-2</sup>", em3min_conditionS)]

/-- `FLARE_ALERT_MAP_NEW` over the state-instrumented predicates. -/
def FLARE_ALERT_MAP_NEW_S : RegistryS :=
  [("XRSB>3e-6 W/m<sup>2</sup><br>5 minute countdown<br>Last XRSA must be increasing",
    xrsb_condition2S)]

/-- Modelled from the spec: `evaluate` in the state-instrumented model,
threading the sample set through every predicate call. -/
def evaluateS : RegistryS → SampleSet → Except String (List (String × Bool)) × SampleSet
  | [] => pureS []
  | (label, p) :: rest =>
      bindS p fun v =>
        bindS (evaluateS rest) fun others =>
          pureS ((label, v) :: others)

/-- A state action leaves the sample set unchanged. -/
def preservesState {α : Type} (m : SampleSet → Except String α × SampleSet) : Prop :=
  ∀ s, (m s).2 = s

theorem bindS_preserves {α β : Type} {m : SampleSet → Except String α × SampleSet}
    {f : α → SampleSet → Except String β × SampleSet}
    (hm : preservesState m) (hf : ∀ a, preservesState (f a)) :
    preservesState (bindS m f) := by
  intro s
  have hs := hm s
  unfold bindS
  cases h : m s with
  | mk r s2 =>
    rw [h] at hs
    cases r with
    | ok a => simpa [hs] using hf a s2 |>.trans hs
    | error e => simpa using hs

theorem pureS_preserves {α : Type} (a : α) : preservesState (pureS a) := fun _ => rfl

theorem readChannelS_preserves (name : String) : preservesState (readChannelS name) :=
  fun _ => rfl

theorem ilocLastS_preserves (name : String) (xs : List ℚ) :
    preservesState (ilocLastS name xs) := fun _ => rfl

theorem xrsb_conditionS_preserves : preservesState xrsb_conditionS :=
  bindS_preserves (readChannelS_preserves _) fun b =>
    bindS_preserves (ilocLastS_preserves _ b) fun _ => pureS_preserves _

theorem xrsb_condition2S_preserves : preservesState xrsb_condition2S :=
  bindS_preserves (readChannelS_preserves _) fun b =>
    bindS_preserves (ilocLastS_preserves _ b) fun _ => pureS_preserves _

theorem em3min_conditionS_preserves : preservesState em3min_conditionS :=
  bindS_preserves (readChannelS_preserves _) fun em =>
    bindS_preserves (ilocLastS_preserves _ em) fun _ => pureS_preserves _

theorem evaluateS_preserves (reg : RegistryS)
    (h : ∀ e ∈ reg, preservesState e.2) : preservesState (evaluateS reg) := by
  induction reg with
  | nil => exact pureS_preserves _
  | cons e rest ih =>
    cases e with
    | mk label p =>
      exact bindS_preserves (h _ (List.mem_cons_self _ _)) fun v =>
        bindS_preserves (ih fun e he => h e (List.mem_cons_of_mem _ he)) fun others =>
          pureS_preserves _

/-! ## Claims -/

/-- Claim C1, counterexample: on the sample set with only the channel
`xrsb = [1e-6]` (present and non-empty), the flare-end predicate does not
succeed — it fails with a MissingChannel error naming `xrsa` — contradicting
the claim that it references only `xrsb` and would return true here. -/
theorem flare_end_missing_xrsa_fails :
    flare_end_condition [("xrsb", [1 / 10^6])] = Except.error "xrsa" ∧
      flare_end_condition [("xrsb", [1 / 10^6])] ≠ Except.ok true := by
  refine ⟨rfl, ?_⟩
  intro h
  rw [(rfl : flare_end_condition [("xrsb", [1 / 10^6])] = Except.error "xrsa")] at h
  cases h

/-- Claim C1, amended: the flare-end predicate also looks up the `xrsa`
channel (without reading its values); for every sample set in which `xrsa`
is present and `xrsb` is present and non-empty, evaluating the flare-end
predicate succeeds and returns whether the last `xrsb` value is below
`2.5e-6`. -/
theorem flare_end_with_xrsa_present (d : SampleSet) (xs : List ℚ) (v : ℚ)
    (ha : lookupChannel d "xrsa" = some xs)
    (hb : lastValue d "xrsb" = some v) :
    flare_end_condition d = Except.ok (decide (v < 25 / 10^7)) := by
  rw [flare_end_condition_eq, ha]
  unfold thresholdResult
  rw [hb]

/-- Witness for the amended C1 at `xrsa = []`, `xrsb = [2e-6]`. -/
theorem flare_end_with_xrsa_present_witness :
    flare_end_condition [("xrsa", []), ("xrsb", [2 / 10^6])] =
      Except.ok (decide ((2 / 10^6 : ℚ) < 25 / 10^7)) :=
  flare_end_with_xrsa_present [("xrsa", []), ("xrsb", [2 / 10^6])] [] (2 / 10^6) rfl rfl

/-- Claim C2: for every sample set with a non-empty `xrsb` channel, the
XRSB-high predicate returns whether the last `xrsb` value is strictly above
`5e-6`; at exactly `5e-6` it returns false. -/
theorem xrsb_high_iff_gt_threshold (d : SampleSet) (v : ℚ)
    (hb : lastValue d "xrsb" = some v) :
    xrsb_condition d = Except.ok (decide (v > 5 / 10^6)) ∧
      (v = 5 / 10^6 → xrsb_condition d = Except.ok false) := by
  have hx : xrsb_condition d = Except.ok (decide (v > 5 / 10^6)) := by
    rw [xrsb_condition_eq]
    unfold thresholdResult
    rw [hb]
  refine ⟨hx, ?_⟩
  intro hv
  rw [hx, hv]
  norm_num

/-- Witness for C2 at the boundary `xrsb = [5e-6]`: the predicate returns
false. -/
theorem xrsb_high_iff_gt_threshold_witness :
    xrsb_condition [("xrsb", [5 / 10^6])] = Except.ok false :=
  (xrsb_high_iff_gt_threshold [("xrsb", [5 / 10^6])] (5 / 10^6) rfl).2 rfl

/-- Claim C3: whenever the flare-end predicate evaluates successfully, its
verdict is true exactly when the last `xrsb` value is strictly below
`2.5e-6`. -/
theorem flare_end_ok_iff_below_threshold (d : SampleSet) (r : Bool)
    (h : flare_end_condition d = Except.ok r) :
    ∃ v, lastValue d "xrsb" = some v ∧ (r = true ↔ v < 25 / 10^7) := by
  rw [flare_end_condition_eq] at h
  cases ha : lookupChannel d "xrsa" with
  | none => rw [ha] at h; cases h
  | some xs =>
    rw [ha] at h
    unfold thresholdResult at h
    cases hb : lastValue d "xrsb" with
    | none => rw [hb] at h; cases h
    | some v =>
      rw [hb] at h
      refine ⟨v, rfl, ?_⟩
      have hr : r = decide (v < 25 / 10^7) := (Except.ok.inj h).symm
      rw [hr]
      simp

/-- Witness for C3 at `xrsa = []`, `xrsb = [2e-6]`. -/
theorem flare_end_ok_iff_below_threshold_witness :
    ∃ v, lastValue [("xrsa", []), ("xrsb", [2 / 10^6])] "xrsb" = some v ∧
      (decide ((2 / 10^6 : ℚ) < 25 / 10^7) = true ↔ v < 25 / 10^7) :=
  flare_end_ok_iff_below_threshold [("xrsa", []), ("xrsb", [2 / 10^6])]
    (decide ((2 / 10^6 : ℚ) < 25 / 10^7)) rfl

/-- Claim C4, counterexample: on the empty sample set (where
`5min emission measure` is certainly absent) the original registry fails,
but the error names `xrsb` — the first predicate's channel — not
`5min emission measure` as the claim requires. -/
theorem evaluate_all_missing_names_xrsb :
    evaluate ([] : SampleSet) FLARE_ALERT_MAP = Except.error "xrsb" ∧
      evaluate ([] : SampleSet) FLARE_ALERT_MAP ≠ Except.error "5min emission measure" := by
  refine ⟨rfl, ?_⟩
  intro h
  rw [(rfl : evaluate ([] : SampleSet) FLARE_ALERT_MAP = Except.error "xrsb")] at h
  have := Except.error.inj h
  simp at this

/-- Claim C4, amended: whenever `5min emission measure` is absent or empty,
evaluating the original registry fails with a MissingChannel error and
returns no partial or default verdict mapping; the error names
`5min emission measure` whenever the `xrsb` channel is itself present and
non-empty (otherwise it names `xrsb`). -/
theorem evaluate_missing_em_fails (d : SampleSet)
    (hem : lastValue d "5min emission measure" = none) :
    (∃ c, evaluate d FLARE_ALERT_MAP = Except.error c) ∧
      (∀ v, lastValue d "xrsb" = some v →
        evaluate d FLARE_ALERT_MAP = Except.error "5min emission measure") := by
  have hev : ∀ v, lastValue d "xrsb" = some v →
      evaluate d FLARE_ALERT_MAP = Except.error "5min emission measure" := by
    intro v hv
    show (do
      let r ← xrsb_condition d
      let others ← evaluate d [("dEM (3 min)>1e47cm<sup>-2</sup>", em3min_condition)]
      pure (("XRSB>5e-6 W/m<sup>2</sup>", r) :: others)) =
        Except.error "5min emission measure"
    rw [xrsb_condition_eq]
    unfold thresholdResult
    rw [hv]
    show (do
      let others ← evaluate d [("dEM (3 min)>1e47cm<sup>-2</sup>", em3min_condition)]
      pure (("XRSB>5e-6 W/m<sup>2</sup>", decide (v > 5 / 10^6)) :: others)) =
        Except.error "5min emission measure"
    have h2 : evaluate d [("dEM (3 min)>1e47cm<sup>-2</sup>", em3min_condition)] =
        Except.error "5min emission measure" := by
      show (do
        let r ← em3min_condition d
        let others ← evaluate d []
        pure (("dEM (3 min)>1e47cm<sup>-2</sup>", r) :: others)) =
          Except.error "5min emission measure"
      rw [em3min_condition_eq]
      unfold thresholdResult
      rw [hem]
      rfl
    rw [h2]
    rfl
  refine ⟨?_, hev⟩
  cases hb : lastValue d "xrsb" with
  | none =>
    refine ⟨"xrsb", ?_⟩
    show (do
      let r ← xrsb_condition d
      let others ← evaluate d [("dEM (3 min)>1e47cm<sup>-2</sup>", em3min_condition)]
      pure (("XRSB>5e-6 W/m<sup>2</sup>", r) :: others)) = Except.error "xrsb"
    rw [xrsb_condition_eq]
    unfold thresholdResult
    rw [hb]
    rfl
  | some v => exact ⟨"5min emission measure", hev v hb⟩

/-- Witness for the amended C4 at the sample set `xrsb = [1]` (so `xrsb`
is present and non-empty while `5min emission measure` is absent). -/
theorem evaluate_missing_em_fails_witness :
    evaluate [("xrsb", [(1 : ℚ)])] FLARE_ALERT_MAP =
      Except.error "5min emission measure" :=
  (evaluate_missing_em_fails [("xrsb", [(1 : ℚ)])] rfl).2 1 rfl

/-- Claim C5, counterexample: on the sample set with `xrsb = [4e-6, 2e-6]`
and no other channel — the sample set of the spec's scenario — the
flare-end predicate does not return true: it fails with a MissingChannel
error naming `xrsa`. -/
theorem scenario_xrsb_only_flare_end_errors :
    flare_end_condition [("xrsb", [4 / 10^6, 2 / 10^6])] = Except.error "xrsa" ∧
      flare_end_condition [("xrsb", [4 / 10^6, 2 / 10^6])] ≠ Except.ok true := by
  refine ⟨rfl, ?_⟩
  intro h
  rw [(rfl : flare_end_condition [("xrsb", [4 / 10^6, 2 / 10^6])] =
    Except.error "xrsa")] at h
  cases h

/-- Claim C5, amended: for a sample set that also carries an `xrsa` channel,
with `xrsb = [4e-6, 2e-6]`, the flare-end predicate returns true
(2e-6 < 2.5e-6) and the XRSB-high predicate (5e-6 threshold) returns
false. -/
theorem scenario_with_xrsa_flare_end_true_xrsb_high_false :
    flare_end_condition [("xrsa", []), ("xrsb", [4 / 10^6, 2 / 10^6])] = Except.ok true ∧
      xrsb_condition [("xrsa", []), ("xrsb", [4 / 10^6, 2 / 10^6])] = Except.ok false := by
  constructor
  · simp [flare_end_condition_eq, thresholdResult, lastValue, lookupChannel, List.getLast?]
    norm_num
  · simp [xrsb_condition_eq, thresholdResult, lastValue, lookupChannel, List.getLast?]
    norm_num

/-- Claim C6: on the sample set `xrsb = [1e-6, 6e-6]`,
`5min emission measure = [2e46, 2e47]`, evaluating the original registry
succeeds with both the XRSB-high and the emission-measure verdicts true. -/
theorem scenario_original_registry_both_true :
    evaluate [("xrsb", [1 / 10^6, 6 / 10^6]),
        ("5min emission measure", [2 * 10^46, 2 * 10^47])] FLARE_ALERT_MAP =
      Except.ok [("XRSB>5e-6 W/m<sup>2</sup>", true),
        ("dEM (3 min)>1e47cm<sup>-2</sup>", true)] := by
  have hx : xrsb_condition [("xrsb", [1 / 10^6, 6 / 10^6]),
      ("5min emission measure", [2 * 10^46, 2 * 10^47])] = Except.ok true := by
    have hlv : lastValue [("xrsb", [1 / 10^6, 6 / 10^6]),
        ("5min emission measure", [2 * 10^46, 2 * 10^47])] "xrsb" = some (6 / 10^6) := rfl
    rw [xrsb_condition_eq]
    unfold thresholdResult
    rw [hlv]
    simp only [Except.ok.injEq, decide_eq_true_eq]
    norm_num
  have he : em3min_condition [("xrsb", [1 / 10^6, 6 / 10^6]),
      ("5min emission measure", [2 * 10^46, 2 * 10^47])] = Except.ok true := by
    have hlv : lastValue [("xrsb", [1 / 10^6, 6 / 10^6]),
        ("5min emission measure", [2 * 10^46, 2 * 10^47])] "5min emission measure" =
        some (2 * 10^47) := rfl
    rw [em3min_condition_eq]
    unfold thresholdResult
    rw [hlv]
    simp only [Except.ok.injEq, decide_eq_true_eq]
    norm_num
  simp only [FLARE_ALERT_MAP, evaluate, hx, he]
  rfl

/-- Claim C7: every predicate of either registry reads only the last and
second-to-last readings: two sample sets with the same channels that agree
on the last two readings of every channel receive the same verdict from
every registered predicate. -/
theorem registry_predicates_last_two_only (d₁ d₂ : SampleSet) (h : sameLastTwo d₁ d₂) :
    ∀ e ∈ FLARE_ALERT_MAP ++ FLARE_ALERT_MAP_NEW, e.2 d₁ = e.2 d₂ := by
  intro e he
  have hlv := lastValue_eq_of_sameLastTwo h
  simp [FLARE_ALERT_MAP, FLARE_ALERT_MAP_NEW] at he
  rcases he with he | he | he
  · subst he
    show xrsb_condition d₁ = xrsb_condition d₂
    rw [xrsb_condition_eq, xrsb_condition_eq]
    exact thresholdResult_congr _ (hlv "xrsb")
  · subst he
    show em3min_condition d₁ = em3min_condition d₂
    rw [em3min_condition_eq, em3min_condition_eq]
    exact thresholdResult_congr _ (hlv "5min emission measure")
  · subst he
    show xrsb_condition2 d₁ = xrsb_condition2 d₂
    rw [xrsb_condition2_eq, xrsb_condition2_eq]
    exact thresholdResult_congr _ (hlv "xrsb")

/-- Witness for C7: two `xrsb` histories that differ only before the last
two readings receive the same XRSB-high verdict. -/
theorem registry_predicates_last_two_only_witness :
    xrsb_condition [("xrsb", [(1 : ℚ), 2, 3])] = xrsb_condition [("xrsb", [(9 : ℚ), 2, 3])] :=
  registry_predicates_last_two_only [("xrsb", [(1 : ℚ), 2, 3])] [("xrsb", [(9 : ℚ), 2, 3])]
    (by
      intro c
      by_cases hc : c = "xrsb" <;>
        simp [lookupChannel, hc, lastTwo, List.getLast?, List.dropLast])
    ("XRSB>5e-6 W/m<sup>2</sup>", xrsb_condition)
    (by simp [FLARE_ALERT_MAP, FLARE_ALERT_MAP_NEW])

/-- Claim C8: the always-true placeholder predicates return true on every
sample set — including the empty one — and never fail. -/
theorem placeholder_triggers_always_true (d : SampleSet) :
    special_flare_trigger d = Except.ok true ∧ magic_flare_trigger d = Except.ok true :=
  ⟨rfl, rfl⟩

/-- Claim C9: in the state-instrumented model, evaluating either registry
leaves the sample set unchanged, and evaluating it again from the resulting
state yields the identical verdict mapping. -/
theorem evaluateS_pure_and_idempotent (s : SampleSet) :
    ((evaluateS FLARE_ALERT_MAP_S s).2 = s ∧
      (evaluateS FLARE_ALERT_MAP_S ((evaluateS FLARE_ALERT_MAP_S s).2)).1 =
        (evaluateS FLARE_ALERT_MAP_S s).1) ∧
    ((evaluateS FLARE_ALERT_MAP_NEW_S s).2 = s ∧
      (evaluateS FLARE_ALERT_MAP_NEW_S ((evaluateS FLARE_ALERT_MAP_NEW_S s).2)).1 =
        (evaluateS FLARE_ALERT_MAP_NEW_S s).1) := by
  have h1 : preservesState (evaluateS FLARE_ALERT_MAP_S) := by
    apply evaluateS_preserves
    intro e he
    simp [FLARE_ALERT_MAP_S] at he
    rcases he with he | he
    · subst he; exact xrsb_conditionS_preserves
    · subst he; exact em3min_conditionS_preserves
  have h2 : preservesState (evaluateS FLARE_ALERT_MAP_NEW_S) := by
    apply evaluateS_preserves
    intro e he
    simp [FLARE_ALERT_MAP_NEW_S] at he
    subst he
    exact xrsb_condition2S_preserves
  refine ⟨⟨h1 s, ?_⟩, ⟨h2 s, ?_⟩⟩
  · rw [h1 s]
  · rw [h2 s]

/-- Claim C10: the flare-end verdict does not depend on the `xrsa` readings:
two sample sets with non-empty `xrsa` and `xrsb` channels that agree on the
last `xrsb` reading receive the same flare-end verdict. -/
theorem flare_end_independent_of_xrsa_values (d₁ d₂ : SampleSet) (v : ℚ)
    (ha₁ : ∃ a, lastValue d₁ "xrsa" = some a)
    (ha₂ : ∃ a, lastValue d₂ "xrsa" = some a)
    (hb₁ : lastValue d₁ "xrsb" = some v)
    (hb₂ : lastValue d₂ "xrsb" = some v) :
    flare_end_condition d₁ = flare_end_condition d₂ := by
  obtain ⟨a₁, h₁⟩ := ha₁
  obtain ⟨a₂, h₂⟩ := ha₂
  obtain ⟨xs₁, hxs₁⟩ := lookup_of_lastValue_some h₁
  obtain ⟨xs₂, hxs₂⟩ := lookup_of_lastValue_some h₂
  rw [flare_end_condition_eq, flare_end_condition_eq, hxs₁, hxs₂]
  unfold thresholdResult
  rw [hb₁, hb₂]

/-- Witness for C10: sample sets with different `xrsa` histories but the
same last `xrsb` reading get the same flare-end verdict. -/
theorem flare_end_independent_of_xrsa_values_witness :
    flare_end_condition [("xrsa", [(1 : ℚ)]), ("xrsb", [2 / 10^6])] =
      flare_end_condition [("xrsa", [(7 : ℚ), 8]), ("xrsb", [5 / 10^6, 2 / 10^6])] :=
  flare_end_independent_of_xrsa_values
    [("xrsa", [(1 : ℚ)]), ("xrsb", [2 / 10^6])]
    [("xrsa", [(7 : ℚ), 8]), ("xrsb", [5 / 10^6, 2 / 10^6])]
    (2 / 10^6) ⟨1, rfl⟩ ⟨8, rfl⟩ rfl rfl

end Flarepred
